import Mathlib

/-!
# Verification of the Manuals-App incremental sync engine

Shallow embedding of `src/sync/index.mjs` (the Google-Drive → Supabase
mirror job) and of the data passthrough API handler (`src/api/data.js`,
with the NextApi variant in `src/unnamed/part_000`).

Modelling conventions:
* JavaScript strings are Lean `String`; the char-level helpers below
  reimplement `String.prototype.split`, `trim`, `toLowerCase` on
  `List Char` so that the kernel can evaluate them on concrete inputs.
* Remote I/O (Drive listing and download, Storage upload, table upsert)
  is a pure environment of response functions; a call that throws is an
  `Except.error`.
* Side effects of a run (downloads, object-store writes, catalog
  upserts) are recorded in an explicit effect trace, in program order.
-/

namespace ManualsApp

/-! ## JavaScript string helpers, char by char -/

/-- `s.split(sep)` for a one-character separator, on the char list.
JS semantics: `"".split(sep)` is `[""]`, adjacent separators yield
empty segments. -/
def splitOnChar (sep : Char) : List Char → List (List Char)
  | [] => [[]]
  | c :: rest =>
    let r := splitOnChar sep rest
    if c = sep then
      [] :: r
    else
      match r with
      | [] => [[c]]
      | s :: ss => (c :: s) :: ss

/-- The segments of a path string under `p.split('/')`. -/
def pathSegs (p : String) : List String :=
  (splitOnChar '/' p.data).map fun cs => String.mk cs

/-- `s.trim()`: strip whitespace from both ends. -/
def trimChars (cs : List Char) : List Char :=
  ((cs.dropWhile Char.isWhitespace).reverse.dropWhile Char.isWhitespace).reverse

/-- Does the char list end (case-insensitively) in `".pdf"`?  This is
the condition under which the regex `/\.pdf$/i` matches. -/
def endsInPdf (cs : List Char) : Bool :=
  decide ((cs.drop (cs.length - 4)).map Char.toLower = ['.', 'p', 'd', 'f'] ∧ 4 ≤ cs.length)

/-! ## Derived-label helpers (`src/sync/index.mjs` lines 128-140) -/

/-- `categoryFromPath(p)`: `p.split('/')[0] || null`.  The first path
segment, with the JS falsiness of the empty string mapped to `none`. -/
def categoryFromPath (p : String) : Option String :=
  match pathSegs p with
  | [] => none
  | s :: _ => if s = "" then none else some s

/-- `brandFromPath(p)`: `segs.length > 1 ? segs[1] : null`.  Note the
code returns `null`, never a default string, when segment 1 is absent. -/
def brandFromPath (p : String) : Option String :=
  (pathSegs p)[1]?

/-- `titleFromName(name)`: `name.replace(/\.pdf$/i, '').trim()`. -/
def titleFromName (name : String) : String :=
  let cs := name.data
  let stripped := if endsInPdf cs then cs.take (cs.length - 4) else cs
  String.mk (trimChars stripped)

/-! ## Data model -/

/-- One element of the array built by `listDrivePdfs`:
`{ id, name, mimeType, size, path }`. -/
structure DriveFile where
  id : String
  name : String
  mimeType : String
  size : Nat
  path : String
  deriving Repr, DecidableEq

/-- A subfolder as returned by the folder-listing query
(`fields: 'files(id,name)'`). -/
structure DriveFolder where
  id : String
  name : String
  deriving Repr, DecidableEq

/-- A file object as served by the provider for the PDF-file query
(`fields: 'nextPageToken, files(id,name,mimeType,size)'`).  `mimeType`
and `size` may be absent; `trashed` is the provider-side flag the query
filters on. -/
structure DriveEntry where
  id : String
  name : String
  mimeType : Option String
  size : Option Nat
  trashed : Bool
  deriving Repr, DecidableEq

/-- The remote provider, as the pure response tables of its two
`drive.files.list` queries.  Each query's answer is a sequence of pages;
a continuation token is "there is a further page". -/
structure Drive where
  /-- Pages for the subfolder query
  `'<id>' in parents and mimeType = 'application/vnd.google-apps.folder' and trashed = false`. -/
  folderPages : String → List (List DriveFolder)
  /-- Pages for the PDF-file query
  `'<id>' in parents and mimeType = 'application/pdf' and trashed = false`. -/
  filePages : String → List (List DriveEntry)

/-- `prefix ? prefix + '/' + name : name` — path synthesis. -/
def childPath (pref name : String) : String :=
  if pref = "" then name else pref ++ "/" ++ name

/-! ## Tree walker (`listDrivePdfs`, lines 61-102)

The recursion over subfolders is bounded by explicit fuel (the source
trusts the provider's tree guarantee; fuel larger than the tree depth
reproduces it exactly).

Faithfulness notes, visible in the definition:
* the subfolder listing is a single `drive.files.list` call with no
  `pageToken` and no `nextPageToken` in `fields` — only the FIRST page
  of `folderPages` is consumed;
* the PDF-file listing is the `do { ... } while (pageToken)` loop — ALL
  pages of `filePages` are consumed, i.e. the concatenation `.flatten`;
* `mimeType: f.mimeType || 'application/pdf'` and
  `size: Number(f.size || 0)` default the optional fields. -/
def listDrivePdfs (drive : Drive) : Nat → String → String → List DriveFile
  | 0, _, _ => []
  | fuel + 1, folderId, pref =>
    let subResults :=
      ((drive.folderPages folderId).headD []).flatMap fun folder =>
        listDrivePdfs drive fuel folder.id (childPath pref folder.name)
    let fileResults :=
      (drive.filePages folderId).flatten.map fun f =>
        { id := f.id
          name := f.name
          mimeType := f.mimeType.getD "application/pdf"
          size := f.size.getD 0
          path := childPath pref f.name }
    subResults ++ fileResults

/-- Follows the spec's words, for comparison with `listDrivePdfs`: the
walker "must follow continuation tokens until exhausted" for EVERY list
call, the subfolder listing included, so here the recursion descends
into every page of `folderPages`, not just the first. -/
def listDrivePdfsAllPages (drive : Drive) : Nat → String → String → List DriveFile
  | 0, _, _ => []
  | fuel + 1, folderId, pref =>
    let subResults :=
      (drive.folderPages folderId).flatten.flatMap fun folder =>
        listDrivePdfsAllPages drive fuel folder.id (childPath pref folder.name)
    let fileResults :=
      (drive.filePages folderId).flatten.map fun f =>
        { id := f.id
          name := f.name
          mimeType := f.mimeType.getD "application/pdf"
          size := f.size.getD 0
          path := childPath pref f.name }
    subResults ++ fileResults

/-! ## Catalog row and the per-file pipeline (`main`, lines 164-230) -/

/-- The row literal built at lines 205-217 for the `manuals` upsert.
`inserted_at`/`updated_at` are `now()` strings taken from the clock. -/
structure ManualRow where
  source_provider : String
  drive_file_id : String
  drive_path : String
  title : String
  brand : Option String
  category : Option String
  mime_type : String
  checksum : String
  storage_path : String
  inserted_at : String
  updated_at : String
  deriving Repr, DecidableEq

/-- The I/O environment of one sync run: configuration, clock, hash, and
the outcome of each remote call.  A throwing call is `Except.error`. -/
structure SyncEnv where
  /-- `MAX_UPLOAD_BYTES` (default 52428800). -/
  maxUploadBytes : Nat
  /-- `now()`, the ISO timestamp string. -/
  now : String
  /-- `md5(buf)`: hex digest of a byte buffer (bytes as `List Nat`). -/
  md5 : List Nat → String
  /-- `downloadDriveFile(drive, fileId)`: the downloaded buffer, or a throw. -/
  download : String → Except String (List Nat)
  /-- `uploadToStorage(buf, storagePath, ...)`: Supabase Storage upload
  with `upsert: true`; `Except.error` models `if (error) throw error`. -/
  uploadResult : String → List Nat → Except String Unit
  /-- `upsertManualRow(row)`: the `manuals` table upsert; `Except.error`
  models `if (error) throw error`. -/
  upsertResult : ManualRow → Except String Unit

/-- The row built for file `f` from downloaded buffer `buf`
(lines 183-189 and 205-217): checksum is `md5(buf)`, storage path
mirrors the Drive path 1:1, labels are the derived fields. -/
def mkRow (env : SyncEnv) (f : DriveFile) (buf : List Nat) : ManualRow :=
  { source_provider := "google_drive"
    drive_file_id := f.id
    drive_path := f.path
    title := titleFromName f.name
    brand := brandFromPath f.path
    category := categoryFromPath f.path
    mime_type := f.mimeType
    checksum := env.md5 buf
    storage_path := f.path
    inserted_at := env.now
    updated_at := env.now }

/-- Observable side effects of a run, in program order.  A
`storeWrite`/`catalogUpsert` is recorded when the call returns without
error; `runRecordWrite` would be the write of a run-ledger record (the
constructor exists so its absence is statable). -/
inductive Effect where
  | download (fileId : String)
  | storeWrite (path : String) (bytes : List Nat)
  | catalogUpsert (row : ManualRow)
  | runRecordWrite (notes : String)
  deriving Repr, DecidableEq

/-- How the loop body ends for one file: `skippedTooLarge` are the two
`continue` branches with `skipped++`; `failed` is the file-level `catch`;
`mirrored` is the full download → upload → upsert path. -/
inductive FileOutcome where
  | skippedTooLarge
  | mirrored
  | failed (msg : String)
  deriving Repr, DecidableEq

/-- The body of `for (const f of files) { try { ... } catch ... }`
(lines 164-230), returning the outcome together with the effect trace.
Control flow mirrored branch by branch:
1. `if (f.size > MAX_UPLOAD_BYTES)` → skip before any download;
2. download (a throw is caught at the file level);
3. `if (buf.length > MAX_UPLOAD_BYTES)` → skip after download;
4. upload to Storage (a throw is re-thrown and caught at the file level);
5. upsert the catalog row (same).
Note: no catalog lookup and no checksum comparison occur anywhere in
the body — the pipeline never consults existing catalog state. -/
def processFile (env : SyncEnv) (f : DriveFile) : FileOutcome × List Effect :=
  if f.size > env.maxUploadBytes then
    (FileOutcome.skippedTooLarge, [])
  else
    match env.download f.id with
    | Except.error e => (FileOutcome.failed e, [Effect.download f.id])
    | Except.ok buf =>
      if buf.length > env.maxUploadBytes then
        (FileOutcome.skippedTooLarge, [Effect.download f.id])
      else
        let row := mkRow env f buf
        match env.uploadResult f.path buf with
        | Except.error e => (FileOutcome.failed e, [Effect.download f.id])
        | Except.ok _ =>
          match env.upsertResult row with
          | Except.error e =>
            (FileOutcome.failed e, [Effect.download f.id, Effect.storeWrite f.path buf])
          | Except.ok _ =>
            (FileOutcome.mirrored,
             [Effect.download f.id, Effect.storeWrite f.path buf, Effect.catalogUpsert row])

/-- The run counters `uploaded` / `skipped` / `upserted`. -/
structure Counters where
  uploaded : Nat
  skipped : Nat
  upserted : Nat
  deriving Repr, DecidableEq

def Counters.zero : Counters := ⟨0, 0, 0⟩

def Counters.add (a b : Counters) : Counters :=
  ⟨a.uploaded + b.uploaded, a.skipped + b.skipped, a.upserted + b.upserted⟩

def isStoreWrite : Effect → Bool
  | Effect.storeWrite _ _ => true
  | _ => false

def isCatalogUpsert : Effect → Bool
  | Effect.catalogUpsert _ => true
  | _ => false

def isRunRecordWrite : Effect → Bool
  | Effect.runRecordWrite _ => true
  | _ => false

/-- Number of object-store writes in a trace. -/
def countStoreWrites (fx : List Effect) : Nat := fx.countP isStoreWrite

/-- Number of catalog (manuals-table) writes in a trace. -/
def countCatalogWrites (fx : List Effect) : Nat := fx.countP isCatalogUpsert

/-- Number of run-ledger writes in a trace. -/
def countRunRecordWrites (fx : List Effect) : Nat := fx.countP isRunRecordWrite

/-- The counter increments one file contributes: `uploaded++` fires on a
successful Storage upload (even when the later upsert throws),
`skipped++` on either too-large branch, `upserted++` on a successful
upsert — exactly one `storeWrite` (resp. `catalogUpsert`) effect is in
the trace in those cases. -/
def fileCounters (o : FileOutcome) (fx : List Effect) : Counters :=
  { uploaded := countStoreWrites fx
    skipped := if o = FileOutcome.skippedTooLarge then 1 else 0
    upserted := countCatalogWrites fx }

/-- The `for (const f of files)` loop: every file is processed, whatever
the previous files' outcomes; counters and traces accumulate. -/
def runLoop (env : SyncEnv) : List DriveFile → Counters × List Effect
  | [] => (Counters.zero, [])
  | f :: rest =>
    let r := processFile env f
    let w := runLoop env rest
    (Counters.add (fileCounters r.1 r.2) w.1, r.2 ++ w.2)

/-- The whole job: `main().catch(e => { console.error(...); process.exit(1) })`.
The tree walk may throw (`listResult` is `Except.error` then): the catch
only logs the message and exits 1.  On success `main` logs a summary and
the process exits 0.  Result: (exit code, effect trace). -/
structure MainEnv where
  sync : SyncEnv
  listResult : Except String (List DriveFile)

def mainRun (env : MainEnv) : Nat × List Effect :=
  match env.listResult with
  | Except.error _ => (1, [])
  | Except.ok files => (0, (runLoop env.sync files).2)

/-! ## Catalog semantics -/

/-- Modelled from the spec: the conflict target of the `manuals` upsert.
`upsertManualRow` in the source is `supabase.from('manuals').upsert(row)`;
which column the conflict resolves on is fixed by the table's unique
constraint, which lives in the database schema, not in the source tree.
The spec: "Catalog upsert is keyed by `remoteId` (unique constraint),
not by path or generated id" — so a row whose `drive_file_id` is already
present replaces that row, otherwise the row is inserted. -/
def upsertManualRow (catalog : List ManualRow) (row : ManualRow) : List ManualRow :=
  if catalog.any fun r => r.drive_file_id = row.drive_file_id then
    catalog.map fun r => if r.drive_file_id = row.drive_file_id then row else r
  else
    catalog ++ [row]

/-- Replay a trace's catalog writes against a catalog state. -/
def applyEffect (catalog : List ManualRow) : Effect → List ManualRow
  | Effect.catalogUpsert row => upsertManualRow catalog row
  | _ => catalog

def applyEffects (catalog : List ManualRow) (fx : List Effect) : List ManualRow :=
  fx.foldl applyEffect catalog

/-- Rows in the catalog carrying a given remote id. -/
def countId (catalog : List ManualRow) (id : String) : Nat :=
  catalog.countP fun r => r.drive_file_id = id

/-! ## Data passthrough API (`src/api/data.js` and `src/unnamed/part_000`) -/

/-- The upstream `fetch(DATA_URL)` response: `ok`, `status`, and the
text body. -/
structure UpstreamResp where
  ok : Bool
  status : Nat
  body : String
  deriving Repr, DecidableEq

/-- An HTTP response produced by the handler. -/
structure HttpResp where
  status : Nat
  body : String
  deriving Repr, DecidableEq

/-- `JSON.stringify({ error: msg })`. -/
def jsonError (msg : String) : String :=
  "\x7b\"error\":\"" ++ msg ++ "\"\x7d"

/-- The edge handler in `src/api/data.js`.  Inputs: the `DATA_URL` env
var and the outcome of `fetch(DATA_URL)` (a network throw is
`Except.error`).  Output: the response, paired with whether an upstream
request was made at all. -/
def dataApiHandler (dataUrl : Option String) (fetchResult : Except String UpstreamResp) :
    HttpResp × Bool :=
  match dataUrl with
  | none => ({ status := 500, body := jsonError "DATA_URL not set" }, false)
  | some _ =>
    match fetchResult with
    | Except.error e => ({ status := 500, body := jsonError e }, true)
    | Except.ok u =>
      if u.ok then
        ({ status := 200, body := u.body }, true)
      else
        ({ status := u.status, body := jsonError ("Upstream " ++ toString u.status) }, true)

/-- The NextApi variant in `src/unnamed/part_000` (`pages/api/data.ts`).
It additionally parses the body as JSON and re-serialises it;
`parseJson` is the outcome of `r.json()` followed by `res.json(...)`
(a parse throw is `Except.error`, caught by the handler's catch). -/
def dataApiHandlerNode (dataUrl : Option String) (fetchResult : Except String UpstreamResp)
    (parseJson : String → Except String String) : HttpResp × Bool :=
  match dataUrl with
  | none => ({ status := 500, body := jsonError "DATA_URL not set" }, false)
  | some _ =>
    match fetchResult with
    | Except.error e => ({ status := 500, body := jsonError e }, true)
    | Except.ok u =>
      if u.ok then
        match parseJson u.body with
        | Except.error e => ({ status := 500, body := jsonError e }, true)
        | Except.ok j => ({ status := 200, body := j }, true)
      else
        ({ status := u.status, body := jsonError ("Upstream " ++ toString u.status) }, true)

/-! ## Provider honesty

The Drive queries ask only for non-trashed `application/pdf` children;
an honest provider serves exactly such entries on every page. -/

/-- Every entry served for the PDF-file query is a non-trashed PDF. -/
def HonestPdfListing (drive : Drive) : Prop :=
  ∀ folderId : String, ∀ e ∈ (drive.filePages folderId).flatten,
    e.mimeType = some "application/pdf" ∧ e.trashed = false

/-! ## Concrete fixtures for witnesses and counterexamples -/

/-- A benign environment: every remote call succeeds. -/
def okEnv : SyncEnv :=
  { maxUploadBytes := 100
    now := "2026-01-01T00:00:00.000Z"
    md5 := fun _ => "abc123"
    download := fun _ => Except.ok [7, 7]
    uploadResult := fun _ _ => Except.ok ()
    upsertResult := fun _ => Except.ok () }

/-- A small PDF file descriptor. -/
def file0 : DriveFile :=
  { id := "r1", name := "m.pdf", mimeType := "application/pdf", size := 2
    path := "Cat/Brand/m.pdf" }

/-- The catalog row the pipeline produces for `file0` under `okEnv`. -/
def row0 : ManualRow := mkRow okEnv file0 [7, 7]

/-- The catalog as left by a first run over `[file0]`: it already holds
`row0`, whose `checksum` equals the fingerprint of the bytes the next
run downloads. -/
def catalog0 : List ManualRow := [row0]

/-- An environment whose download always throws. -/
def downFailEnv : SyncEnv :=
  { okEnv with download := fun _ => Except.error "download failed" }

/-- Environment in which the Storage upload always throws. -/
def uploadFailEnv : SyncEnv :=
  { okEnv with uploadResult := fun _ _ => Except.error "storage denied" }

/-- An environment in which only the file with id `"r2"` fails to
download; every other call succeeds. -/
def mixedEnv : SyncEnv :=
  { okEnv with download := fun fid =>
      if fid = "r2" then Except.error "boom" else Except.ok [7, 7] }

/-- A second small file, distinct from `file0`. -/
def file1 : DriveFile :=
  { id := "r2", name := "n.pdf", mimeType := "application/pdf", size := 2
    path := "Cat/Brand/n.pdf" }

/-- `file0` renamed: same remote id, different name and path. -/
def file0Renamed : DriveFile :=
  { id := "r1", name := "renamed.pdf", mimeType := "application/pdf", size := 2
    path := "Cat/Other/renamed.pdf" }

/-- A file whose provider-reported size exceeds `okEnv`'s 100-byte cap. -/
def bigFile : DriveFile :=
  { id := "big", name := "big.pdf", mimeType := "application/pdf", size := 101
    path := "Cat/Brand/big.pdf" }

/-- A file reporting size 0 (provider sent no size). -/
def noSizeFile : DriveFile :=
  { id := "nosize", name := "nosize.pdf", mimeType := "application/pdf", size := 0
    path := "Cat/Brand/nosize.pdf" }

/-- Environment whose download returns more bytes than the cap. -/
def fatDownloadEnv : SyncEnv :=
  { okEnv with download := fun _ => Except.ok (List.replicate 101 0) }

/-- A provider whose root subfolder listing spans TWO pages: page 1
holds folder `A`, page 2 holds folder `B`; each folder holds one PDF. -/
def twoPageDrive : Drive :=
  { folderPages := fun fid =>
      if fid = "root" then [[{ id := "idA", name := "A" }], [{ id := "idB", name := "B" }]]
      else []
    filePages := fun fid =>
      if fid = "idA" then
        [[{ id := "pdfA", name := "a.pdf", mimeType := some "application/pdf"
            size := some 3, trashed := false }]]
      else if fid = "idB" then
        [[{ id := "pdfB", name := "b.pdf", mimeType := some "application/pdf"
            size := some 3, trashed := false }]]
      else [] }

/-- A one-folder honest provider, for witnesses: the root holds a
single PDF whose `size` field is absent. -/
def smallDrive : Drive :=
  { folderPages := fun _ => []
    filePages := fun fid =>
      if fid = "root" then
        [[{ id := "p1", name := "doc.pdf", mimeType := some "application/pdf"
            size := none, trashed := false }]]
      else [] }

/-- A fatal run: the tree walk throws. -/
def fatalMainEnv : MainEnv :=
  { sync := okEnv, listResult := Except.error "listing failed" }

/-- A normal run over one small file. -/
def okMainEnv : MainEnv :=
  { sync := okEnv, listResult := Except.ok [file0] }

/-- Upstream answered 502 (non-ok). -/
def badUpstream : UpstreamResp := { ok := false, status := 502, body := "Bad Gateway" }

/-! ## Helper lemmas -/

theorem Counters.zero_add (c : Counters) : Counters.add Counters.zero c = c := by
  cases c
  simp [Counters.add, Counters.zero]

theorem Counters.add_assoc (a b c : Counters) :
    Counters.add (Counters.add a b) c = Counters.add a (Counters.add b c) := by
  cases a; cases b; cases c
  simp [Counters.add, Nat.add_assoc]

/-- The loop is a homomorphism on list append: counters add up and
traces concatenate — processing never short-circuits. -/
theorem runLoop_append (env : SyncEnv) (xs ys : List DriveFile) :
    runLoop env (xs ++ ys) =
      (Counters.add (runLoop env xs).1 (runLoop env ys).1,
       (runLoop env xs).2 ++ (runLoop env ys).2) := by
  induction xs with
  | nil => simp [runLoop, Counters.zero_add]
  | cons f rest ih => simp [runLoop, ih, Counters.add_assoc]

/-- Pre-download size gate: provider-reported size over the cap skips
with an empty trace. -/
theorem processFile_size_gate (env : SyncEnv) (f : DriveFile)
    (h : f.size > env.maxUploadBytes) :
    processFile env f = (FileOutcome.skippedTooLarge, []) := by
  simp [processFile, h]

/-- Post-download size gate: actual bytes over the cap skip after the
download, with no store write and no catalog write. -/
theorem processFile_post_gate (env : SyncEnv) (f : DriveFile) (buf : List Nat)
    (h1 : ¬ f.size > env.maxUploadBytes) (h2 : env.download f.id = Except.ok buf)
    (h3 : buf.length > env.maxUploadBytes) :
    processFile env f = (FileOutcome.skippedTooLarge, [Effect.download f.id]) := by
  simp [processFile, h1, h2, h3]

/-- A `mirrored` outcome pins down the whole trace. -/
theorem processFile_mirrored_trace (env : SyncEnv) (f : DriveFile)
    (h : (processFile env f).1 = FileOutcome.mirrored) :
    ∃ buf, env.download f.id = Except.ok buf ∧
      env.uploadResult f.path buf = Except.ok () ∧
      env.upsertResult (mkRow env f buf) = Except.ok () ∧
      (processFile env f).2 =
        [Effect.download f.id, Effect.storeWrite f.path buf,
         Effect.catalogUpsert (mkRow env f buf)] := by
  by_cases hs : f.size > env.maxUploadBytes
  · simp [processFile, hs] at h
  · cases hd : env.download f.id with
    | error e => simp [processFile, hs, hd] at h
    | ok buf =>
      by_cases hl : buf.length > env.maxUploadBytes
      · simp [processFile, hs, hd, hl] at h
      · cases hu : env.uploadResult f.path buf with
        | error e => simp [processFile, hs, hd, hl, hu] at h
        | ok u =>
          cases hp : env.upsertResult (mkRow env f buf) with
          | error e => simp [processFile, hs, hd, hl, hu, hp] at h
          | ok u2 =>
            exact ⟨buf, rfl, hu, hp, by simp [processFile, hs, hd, hl, hu, hp]⟩

/-- No branch of the per-file pipeline writes a run-ledger record. -/
theorem processFile_no_runRecord (env : SyncEnv) (f : DriveFile) :
    countRunRecordWrites (processFile env f).2 = 0 := by
  by_cases hs : f.size > env.maxUploadBytes
  · simp [processFile, hs, countRunRecordWrites]
  · cases hd : env.download f.id with
    | error e => simp [processFile, hs, hd, countRunRecordWrites, isRunRecordWrite]
    | ok buf =>
      by_cases hl : buf.length > env.maxUploadBytes
      · simp [processFile, hs, hd, hl, countRunRecordWrites, isRunRecordWrite]
      · cases hu : env.uploadResult f.path buf with
        | error e => simp [processFile, hs, hd, hl, hu, countRunRecordWrites, isRunRecordWrite]
        | ok u =>
          cases hp : env.upsertResult (mkRow env f buf) with
          | error e =>
            simp [processFile, hs, hd, hl, hu, hp, countRunRecordWrites, isRunRecordWrite]
          | ok u2 =>
            simp [processFile, hs, hd, hl, hu, hp, countRunRecordWrites, isRunRecordWrite]

theorem runLoop_no_runRecord (env : SyncEnv) (files : List DriveFile) :
    countRunRecordWrites (runLoop env files).2 = 0 := by
  induction files with
  | nil => rfl
  | cons f rest ih =>
    have h1 := processFile_no_runRecord env f
    simp only [runLoop, countRunRecordWrites, List.countP_append] at h1 ih ⊢
    omega

/-- Replacing every row carrying the key by `row` (which itself carries
the key) leaves the number of rows with that key unchanged. -/
theorem countId_map_replace (c : List ManualRow) (row : ManualRow) :
    countId (c.map fun r => if r.drive_file_id = row.drive_file_id then row else r)
        row.drive_file_id
      = countId c row.drive_file_id := by
  induction c with
  | nil => rfl
  | cons r rest ih =>
    by_cases h : r.drive_file_id = row.drive_file_id <;>
      simp [countId, List.countP_cons, h, ih, countId] at * <;> omega

/-- After an upsert there is exactly one row with the row's key,
provided the catalog held at most one before. -/
theorem countId_upsertManualRow (c : List ManualRow) (row : ManualRow)
    (h : countId c row.drive_file_id ≤ 1) :
    countId (upsertManualRow c row) row.drive_file_id = 1 := by
  unfold upsertManualRow
  by_cases ha : c.any fun r => r.drive_file_id = row.drive_file_id
  · rw [if_pos ha, countId_map_replace]
    rcases List.any_eq_true.mp ha with ⟨x, hx, hpx⟩
    have hpos : 0 < countId c row.drive_file_id :=
      List.countP_pos_iff.mpr ⟨x, hx, hpx⟩
    omega
  · rw [if_neg ha]
    have hz : countId c row.drive_file_id = 0 := by
      rw [countId, List.countP_eq_zero]
      intro a hmem
      by_contra hc
      exact ha (List.any_eq_true.mpr ⟨a, hmem, hc⟩)
    rw [countId, List.countP_append]
    rw [countId] at hz
    simp [hz, List.countP_cons]

/-- Upserting the same row twice is the same as upserting it once. -/
theorem upsertManualRow_idem (c : List ManualRow) (row : ManualRow) :
    upsertManualRow (upsertManualRow c row) row = upsertManualRow c row := by
  unfold upsertManualRow
  by_cases ha : c.any fun r => r.drive_file_id = row.drive_file_id
  · rw [if_pos ha]
    rcases List.any_eq_true.mp ha with ⟨x, hx, hpx⟩
    have hmem : row ∈ c.map fun r => if r.drive_file_id = row.drive_file_id then row else r := by
      refine List.mem_map.mpr ⟨x, hx, ?_⟩
      simp at hpx
      simp [hpx]
    have ha2 : (c.map fun r => if r.drive_file_id = row.drive_file_id then row else r).any
        (fun r => r.drive_file_id = row.drive_file_id) = true :=
      List.any_eq_true.mpr ⟨row, hmem, by simp⟩
    rw [if_pos ha2, List.map_map]
    refine List.map_congr_left fun a _ => ?_
    by_cases hpa : a.drive_file_id = row.drive_file_id <;> simp [hpa]
  · rw [if_neg ha]
    have ha2 : (c ++ [row]).any (fun r => r.drive_file_id = row.drive_file_id) = true :=
      List.any_eq_true.mpr ⟨row, by simp, by simp⟩
    rw [if_pos ha2, List.map_append]
    have hc : (c.map fun r => if r.drive_file_id = row.drive_file_id then row else r) = c :=
      calc (c.map fun r => if r.drive_file_id = row.drive_file_id then row else r)
          = c.map id := by
            refine List.map_congr_left fun a hmem => ?_
            have hne : ¬ a.drive_file_id = row.drive_file_id := by
              by_contra hcon
              exact ha (List.any_eq_true.mpr ⟨a, hmem, by simpa using hcon⟩)
            simp [hne]
        _ = c := List.map_id c
    simp [hc]

/-- Replaying a full-success per-file trace against the catalog is one
upsert of the produced row. -/
theorem applyEffects_mirrored (catalog : List ManualRow) (fid p : String)
    (buf : List Nat) (row : ManualRow) :
    applyEffects catalog
        [Effect.download fid, Effect.storeWrite p buf, Effect.catalogUpsert row]
      = upsertManualRow catalog row := by
  simp [applyEffects, applyEffect]

/-- Against an honest provider, every file the walker returns is a
non-trashed PDF, and carries the provider entry's id and defaulted
size. -/
theorem listDrivePdfs_honest (drive : Drive) (honest : HonestPdfListing drive) :
    ∀ fuel folderId pref f, f ∈ listDrivePdfs drive fuel folderId pref →
      f.mimeType = "application/pdf" ∧
      ∃ fid e, e ∈ (drive.filePages fid).flatten ∧ e.trashed = false ∧
        f.id = e.id ∧ f.size = e.size.getD 0 := by
  intro fuel
  induction fuel with
  | zero =>
    intro folderId pref f hf
    simp [listDrivePdfs] at hf
  | succ n ih =>
    intro folderId pref f hf
    simp only [listDrivePdfs, List.mem_append] at hf
    rcases hf with hf | hf
    · rcases List.mem_flatMap.mp hf with ⟨folder, hfolder, hmem⟩
      exact ih folder.id (childPath pref folder.name) f hmem
    · rcases List.mem_map.mp hf with ⟨e, he, rfl⟩
      rcases honest folderId e he with ⟨hm, ht⟩
      exact ⟨by simp [hm], folderId, e, he, ht, rfl, rfl⟩

/-- `smallDrive` is honest: its only served entry is a non-trashed PDF. -/
theorem honestSmallDrive : HonestPdfListing smallDrive := by
  intro folderId e he
  by_cases h : folderId = "root"
  · subst h
    simp [smallDrive] at he
    subst he
    exact ⟨rfl, rfl⟩
  · simp [smallDrive, h] at he

/-! ## Claim theorems -/

/-- C5: the size gate is enforced against actual bytes, not only
provider metadata.  A file whose reported size exceeds the cap is
skipped before any download (empty trace) and counted as skipped; a
file whose reported size passes but whose downloaded byte length
exceeds the cap is skipped after the download — no store write, no
catalog write — and counted as skipped-too-large. -/
theorem size_gate_enforced :
    (∀ (env : SyncEnv) (f : DriveFile), f.size > env.maxUploadBytes →
      processFile env f = (FileOutcome.skippedTooLarge, []))
    ∧ (∀ (env : SyncEnv) (f : DriveFile) (buf : List Nat),
        ¬ f.size > env.maxUploadBytes → env.download f.id = Except.ok buf →
        buf.length > env.maxUploadBytes →
        processFile env f = (FileOutcome.skippedTooLarge, [Effect.download f.id]))
    ∧ fileCounters FileOutcome.skippedTooLarge [] = ⟨0, 1, 0⟩
    ∧ (∀ fid : String,
        fileCounters FileOutcome.skippedTooLarge [Effect.download fid] = ⟨0, 1, 0⟩) :=
  ⟨processFile_size_gate, processFile_post_gate, rfl, fun _ => rfl⟩

/-- Witness for C5 at concrete inputs: a 101-byte-reported file under a
100-byte cap skips pre-download; a 2-byte-reported file whose actual
download is 101 bytes skips post-download. -/
theorem size_gate_enforced_witness :
    processFile okEnv bigFile = (FileOutcome.skippedTooLarge, [])
    ∧ processFile fatDownloadEnv file0 =
        (FileOutcome.skippedTooLarge, [Effect.download file0.id]) :=
  ⟨size_gate_enforced.1 okEnv bigFile (by decide),
   size_gate_enforced.2.1 fatDownloadEnv file0 (List.replicate 101 0) (by decide) rfl
     (by decide)⟩

/-- C4: per-file failures are isolated.  If the pipeline for `f` fails
(download, upload or upsert threw — caught by the file-level catch), the
run over `xs ++ f :: ys` still completes: its trace is exactly the
traces of `xs`, then `f`'s partial trace, then the traces of `ys`, and
the counters aggregate the same way — no other file's mirroring is
affected. -/
theorem per_file_isolation (env : SyncEnv) (xs : List DriveFile) (f : DriveFile)
    (ys : List DriveFile) (msg : String)
    (hfail : (processFile env f).1 = FileOutcome.failed msg) :
    (runLoop env (xs ++ f :: ys)).2 =
      (runLoop env xs).2 ++ (processFile env f).2 ++ (runLoop env ys).2
    ∧ (runLoop env (xs ++ f :: ys)).1 =
      Counters.add (runLoop env xs).1
        (Counters.add (fileCounters (processFile env f).1 (processFile env f).2)
          (runLoop env ys).1) := by
  constructor <;> simp [runLoop_append, runLoop, List.append_assoc]

/-- Witness for C4: file `"r2"` fails to download in the middle of a
three-file run; the surrounding files' effects are untouched. -/
theorem per_file_isolation_witness :
    (runLoop mixedEnv ([file0] ++ file1 :: [file0Renamed])).2 =
      (runLoop mixedEnv [file0]).2 ++ (processFile mixedEnv file1).2 ++
        (runLoop mixedEnv [file0Renamed]).2
    ∧ (runLoop mixedEnv ([file0] ++ file1 :: [file0Renamed])).1 =
      Counters.add (runLoop mixedEnv [file0]).1
        (Counters.add (fileCounters (processFile mixedEnv file1).1
            (processFile mixedEnv file1).2)
          (runLoop mixedEnv [file0Renamed]).1) :=
  per_file_isolation mixedEnv [file0] file1 [file0Renamed] "boom" (by decide)

/-- C6: the object-store write strictly precedes the catalog upsert.
Any trace containing a catalog upsert is exactly
download → store write → upsert (so the store write comes first and the
upload succeeded); and when the upload throws, no catalog write occurs
for that file. -/
theorem store_write_precedes_upsert :
    (∀ (env : SyncEnv) (f : DriveFile) (row : ManualRow),
      Effect.catalogUpsert row ∈ (processFile env f).2 →
      ∃ buf, env.download f.id = Except.ok buf ∧
        env.uploadResult f.path buf = Except.ok () ∧
        (processFile env f).2 =
          [Effect.download f.id, Effect.storeWrite f.path buf, Effect.catalogUpsert row])
    ∧ (∀ (env : SyncEnv) (f : DriveFile) (buf : List Nat) (e : String),
        env.download f.id = Except.ok buf →
        env.uploadResult f.path buf = Except.error e →
        ∀ row : ManualRow, Effect.catalogUpsert row ∉ (processFile env f).2) := by
  constructor
  · intro env f row hmem
    by_cases hs : f.size > env.maxUploadBytes
    · simp [processFile, hs] at hmem
    · cases hd : env.download f.id with
      | error er => simp [processFile, hs, hd] at hmem
      | ok buf =>
        by_cases hl : buf.length > env.maxUploadBytes
        · simp [processFile, hs, hd, hl] at hmem
        · cases hu : env.uploadResult f.path buf with
          | error er => simp [processFile, hs, hd, hl, hu] at hmem
          | ok u =>
            cases hp : env.upsertResult (mkRow env f buf) with
            | error er => simp [processFile, hs, hd, hl, hu, hp] at hmem
            | ok u2 =>
              have htr : (processFile env f).2 =
                  [Effect.download f.id, Effect.storeWrite f.path buf,
                   Effect.catalogUpsert (mkRow env f buf)] := by
                simp [processFile, hs, hd, hl, hu, hp]
              rw [htr] at hmem
              simp at hmem
              exact ⟨buf, rfl, hu, by rw [htr, hmem]⟩
  · intro env f buf e hd hu row
    by_cases hs : f.size > env.maxUploadBytes
    · simp [processFile, hs]
    · by_cases hl : buf.length > env.maxUploadBytes
      · simp [processFile, hs, hd, hl]
      · simp [processFile, hs, hd, hl, hu]

/-- Witness for C6: a successful mirror of `file0` has its store write
before its upsert; with a throwing Storage upload, no upsert occurs. -/
theorem store_write_precedes_upsert_witness :
    (∃ buf, okEnv.download file0.id = Except.ok buf ∧
      okEnv.uploadResult file0.path buf = Except.ok () ∧
      (processFile okEnv file0).2 =
        [Effect.download file0.id, Effect.storeWrite file0.path buf,
         Effect.catalogUpsert row0])
    ∧ Effect.catalogUpsert row0 ∉ (processFile uploadFailEnv file0).2 :=
  ⟨store_write_precedes_upsert.1 okEnv file0 row0 (by decide),
   store_write_precedes_upsert.2 uploadFailEnv file0 [7, 7] "storage denied" rfl rfl row0⟩

/-- C9: the tree walker enumerates only non-trashed files served on the
`mimeType = 'application/pdf'` query — every walked file carries MIME
type exactly `application/pdf` and stems from a non-trashed provider
entry; any other remote file never appears in the result.  A file whose
provider entry has no size is given size 0, so it always passes the
pre-download gate (its trace begins with the download) and an oversized
body is caught only by the post-download byte-length check. -/
theorem walker_filters_pdfs :
    (∀ drive : Drive, HonestPdfListing drive → ∀ fuel folderId pref f,
      f ∈ listDrivePdfs drive fuel folderId pref →
      f.mimeType = "application/pdf" ∧
      ∃ fid e, e ∈ (drive.filePages fid).flatten ∧ e.trashed = false ∧
        f.id = e.id ∧ f.size = e.size.getD 0)
    ∧ (∀ (env : SyncEnv) (f : DriveFile), f.size = 0 →
        ∃ t, (processFile env f).2 = Effect.download f.id :: t)
    ∧ (∀ (env : SyncEnv) (f : DriveFile) (buf : List Nat), f.size = 0 →
        env.download f.id = Except.ok buf → buf.length > env.maxUploadBytes →
        processFile env f = (FileOutcome.skippedTooLarge, [Effect.download f.id])) := by
  refine ⟨fun drive honest => listDrivePdfs_honest drive honest, ?_, ?_⟩
  · intro env f hsz
    have hs : ¬ f.size > env.maxUploadBytes := by omega
    cases hd : env.download f.id with
    | error e => exact ⟨[], by simp [processFile, hs, hd]⟩
    | ok buf =>
      by_cases hl : buf.length > env.maxUploadBytes
      · exact ⟨[], by simp [processFile, hs, hd, hl]⟩
      · cases hu : env.uploadResult f.path buf with
        | error e => exact ⟨[], by simp [processFile, hs, hd, hl, hu]⟩
        | ok u =>
          cases hp : env.upsertResult (mkRow env f buf) with
          | error e =>
            exact ⟨[Effect.storeWrite f.path buf], by simp [processFile, hs, hd, hl, hu, hp]⟩
          | ok u2 =>
            exact ⟨[Effect.storeWrite f.path buf, Effect.catalogUpsert (mkRow env f buf)],
              by simp [processFile, hs, hd, hl, hu, hp]⟩
  · intro env f buf hsz hd hl
    exact processFile_post_gate env f buf (by omega) hd hl

/-- Witness for C9: the one file `smallDrive` serves (a sizeless PDF)
is walked with MIME `application/pdf` and size 0; a sizeless file's
pipeline always reaches the download, and an oversized body is then
caught post-download. -/
theorem walker_filters_pdfs_witness :
    ((DriveFile.mk "p1" "doc.pdf" "application/pdf" 0 "doc.pdf").mimeType = "application/pdf"
      ∧ ∃ fid e, e ∈ (smallDrive.filePages fid).flatten ∧ e.trashed = false ∧
          (DriveFile.mk "p1" "doc.pdf" "application/pdf" 0 "doc.pdf").id = e.id ∧
          (DriveFile.mk "p1" "doc.pdf" "application/pdf" 0 "doc.pdf").size = e.size.getD 0)
    ∧ (∃ t, (processFile okEnv noSizeFile).2 = Effect.download noSizeFile.id :: t)
    ∧ processFile fatDownloadEnv noSizeFile =
        (FileOutcome.skippedTooLarge, [Effect.download noSizeFile.id]) :=
  ⟨walker_filters_pdfs.1 smallDrive honestSmallDrive 1 "root" ""
      (DriveFile.mk "p1" "doc.pdf" "application/pdf" 0 "doc.pdf") (by decide),
   walker_filters_pdfs.2.1 okEnv noSizeFile rfl,
   walker_filters_pdfs.2.2 fatDownloadEnv noSizeFile (List.replicate 101 0) rfl rfl
     (by decide)⟩

/-- C1 counterexample: the catalog already holds the row for `file0`
(`countId = 1`) and that row's stored `checksum` equals the fingerprint
of the bytes the next run downloads — yet re-running the pipeline still
performs one object-store write and one catalog write (the claim says
it skips with zero writes).  Replaying the writes leaves the catalog
unchanged, so the writes exist but are idempotent. -/
theorem checksum_skip_refuted :
    countId catalog0 file0.id = 1
    ∧ row0.checksum = okEnv.md5 [7, 7]
    ∧ okEnv.download file0.id = Except.ok [7, 7]
    ∧ countStoreWrites (runLoop okEnv [file0]).2 = 1
    ∧ countCatalogWrites (runLoop okEnv [file0]).2 = 1
    ∧ applyEffects catalog0 (runLoop okEnv [file0]).2 = catalog0 :=
  ⟨rfl, rfl, rfl, rfl, rfl, rfl⟩

/-- C1 (amended): the per-file pipeline performs no catalog lookup and
no checksum comparison.  Whatever catalog state exists, every file that
passes both size gates and whose download, upload and upsert succeed is
re-uploaded and re-upserted — one store write and one catalog write —
on every run, a rerun against an unchanged remote included. -/
theorem pipeline_writes_unconditionally :
    ∀ (env : SyncEnv) (f : DriveFile) (buf : List Nat),
      ¬ f.size > env.maxUploadBytes →
      env.download f.id = Except.ok buf →
      ¬ buf.length > env.maxUploadBytes →
      env.uploadResult f.path buf = Except.ok () →
      env.upsertResult (mkRow env f buf) = Except.ok () →
      (processFile env f).2 =
        [Effect.download f.id, Effect.storeWrite f.path buf,
         Effect.catalogUpsert (mkRow env f buf)]
      ∧ countStoreWrites (processFile env f).2 = 1
      ∧ countCatalogWrites (processFile env f).2 = 1 := by
  intro env f buf hs hd hl hu hp
  have htr : (processFile env f).2 =
      [Effect.download f.id, Effect.storeWrite f.path buf,
       Effect.catalogUpsert (mkRow env f buf)] := by
    simp [processFile, hs, hd, hl, hu, hp]
  refine ⟨htr, ?_, ?_⟩ <;> rw [htr] <;> rfl

/-- Witness for C1 (amended) at `file0` under `okEnv`. -/
theorem pipeline_writes_unconditionally_witness :
    (processFile okEnv file0).2 =
      [Effect.download file0.id, Effect.storeWrite file0.path [7, 7],
       Effect.catalogUpsert (mkRow okEnv file0 [7, 7])]
    ∧ countStoreWrites (processFile okEnv file0).2 = 1
    ∧ countCatalogWrites (processFile okEnv file0).2 = 1 :=
  pipeline_writes_unconditionally okEnv file0 [7, 7] (by decide) rfl (by decide) rfl rfl

/-- C3: the catalog holds exactly one row per remote id.  Mirroring the
same remote id in two runs — under different names and paths — yields
exactly one catalog row for that id (provided the catalog held at most
one before), and re-running the upsert with the same data yields the
same catalog, no duplicates. -/
theorem upsert_key_stability :
    (∀ (env₁ env₂ : SyncEnv) (f g : DriveFile) (catalog : List ManualRow),
      g.id = f.id →
      countId catalog f.id ≤ 1 →
      (processFile env₁ f).1 = FileOutcome.mirrored →
      (processFile env₂ g).1 = FileOutcome.mirrored →
      countId (applyEffects (applyEffects catalog (processFile env₁ f).2)
                 (processFile env₂ g).2) f.id = 1)
    ∧ (∀ (catalog : List ManualRow) (row : ManualRow),
        upsertManualRow (upsertManualRow catalog row) row = upsertManualRow catalog row) := by
  constructor
  · intro env₁ env₂ f g catalog hid hcount h1 h2
    rcases processFile_mirrored_trace env₁ f h1 with ⟨b1, _, _, _, ht1⟩
    rcases processFile_mirrored_trace env₂ g h2 with ⟨b2, _, _, _, ht2⟩
    rw [ht1, ht2, applyEffects_mirrored, applyEffects_mirrored]
    have hr1 : (mkRow env₁ f b1).drive_file_id = f.id := rfl
    have hr2 : (mkRow env₂ g b2).drive_file_id = f.id := hid
    have step1 : countId (upsertManualRow catalog (mkRow env₁ f b1)) f.id = 1 := by
      have h := countId_upsertManualRow catalog (mkRow env₁ f b1) (by rw [hr1]; exact hcount)
      rwa [hr1] at h
    have step2 := countId_upsertManualRow (upsertManualRow catalog (mkRow env₁ f b1))
      (mkRow env₂ g b2) (by rw [hr2]; omega)
    rwa [hr2] at step2
  · exact upsertManualRow_idem

/-- Witness for C3: mirroring `file0` and then its rename
`file0Renamed` (same id `"r1"`, different name and path) into an empty
catalog leaves exactly one row for `"r1"`; the double upsert of `row0`
equals the single one. -/
theorem upsert_key_stability_witness :
    countId (applyEffects (applyEffects [] (processFile okEnv file0).2)
               (processFile okEnv file0Renamed).2) file0.id = 1
    ∧ upsertManualRow (upsertManualRow [] row0) row0 = upsertManualRow [] row0 :=
  ⟨upsert_key_stability.1 okEnv okEnv file0 file0Renamed [] rfl (by decide) (by decide)
     (by decide),
   upsert_key_stability.2 [] row0⟩

/-- C7 counterexample: on a fatal tree-walk failure the job exits 1
with an EMPTY effect trace — no RunRecord (run-ledger) write is even
attempted, against the claim that one capturing the error notes is; and
a normal completion also writes zero run records, against the claim
that exactly one with the final counters is written. -/
theorem run_record_never_attempted :
    mainRun fatalMainEnv = (1, [])
    ∧ countRunRecordWrites (mainRun okMainEnv).2 = 0 :=
  ⟨rfl, rfl⟩

/-- C7 (amended): on fatal (tree-walk) failure the job only logs the
error and exits 1; on normal completion it logs a summary and exits 0.
In neither case — in no case at all — is a run-ledger record written. -/
theorem no_run_record_ever :
    (∀ env : MainEnv, countRunRecordWrites (mainRun env).2 = 0)
    ∧ (∀ (env : MainEnv) (e : String), env.listResult = Except.error e →
        mainRun env = (1, []))
    ∧ (∀ (env : MainEnv) (files : List DriveFile), env.listResult = Except.ok files →
        (mainRun env).1 = 0) := by
  refine ⟨?_, ?_, ?_⟩
  · intro env
    cases hl : env.listResult with
    | error e => simp [mainRun, hl, countRunRecordWrites]
    | ok files =>
      simpa [mainRun, hl] using runLoop_no_runRecord env.sync files
  · intro env e hl
    simp [mainRun, hl]
  · intro env files hl
    simp [mainRun, hl]

/-- Witness for C7 (amended) at a concrete fatal run and a concrete
normal run. -/
theorem no_run_record_ever_witness :
    countRunRecordWrites (mainRun fatalMainEnv).2 = 0
    ∧ mainRun fatalMainEnv = (1, [])
    ∧ (mainRun okMainEnv).1 = 0 :=
  ⟨no_run_record_ever.1 fatalMainEnv,
   no_run_record_ever.2.1 fatalMainEnv "listing failed" rfl,
   no_run_record_ever.2.2 okMainEnv [file0] rfl⟩

/-- C8 counterexample: for a path with no segment 1 the code's brand is
`null` (`none`), not the claimed default `"Unknown"`. -/
theorem brand_default_refuted :
    brandFromPath "manual.pdf" = none
    ∧ brandFromPath "manual.pdf" ≠ some "Unknown" := by
  exact ⟨by decide, by decide⟩

/-- C8 (amended): the derived catalog fields are pure functions of the
mirrored path and file name — category is path segment 0, brand is path
segment 1 when it exists and `null` (not `"Unknown"`) otherwise, and
title is the file name with a trailing case-insensitive `.pdf` (only
that extension) stripped and whitespace trimmed.  On the spec's example
path they give Powersports / Kawasaki / manual. -/
theorem derived_fields_pure :
    (∀ (env : SyncEnv) (f : DriveFile) (buf : List Nat),
      (mkRow env f buf).category = categoryFromPath f.path
      ∧ (mkRow env f buf).brand = brandFromPath f.path
      ∧ (mkRow env f buf).title = titleFromName f.name)
    ∧ categoryFromPath "Powersports/Kawasaki/manual.pdf" = some "Powersports"
    ∧ brandFromPath "Powersports/Kawasaki/manual.pdf" = some "Kawasaki"
    ∧ titleFromName "manual.pdf" = "manual"
    ∧ (∀ p : String, (pathSegs p).length ≤ 1 → brandFromPath p = none) := by
  refine ⟨fun env f buf => ⟨rfl, rfl, rfl⟩, by decide, by decide, by decide, ?_⟩
  intro p hp
  rw [brandFromPath]
  exact List.getElem?_eq_none hp

/-- Witness for C8 (amended): the row fields at `file0` agree with the
derived-field functions, and a one-segment path has brand `none`. -/
theorem derived_fields_pure_witness :
    (mkRow okEnv file0 []).brand = brandFromPath file0.path
    ∧ brandFromPath "manual.pdf" = none :=
  ⟨(derived_fields_pure.1 okEnv file0 []).2.1,
   derived_fields_pure.2.2.2.2 "manual.pdf" (by decide)⟩

/-- C2: evaluation at the failing input.  `twoPageDrive` serves its
root's subfolders in TWO pages (folder `A` on page 1, folder `B` on
page 2), each folder holding one PDF.  The walker, whose subfolder
listing never follows a continuation token, returns only `A/a.pdf` —
`b.pdf`, reachable from the root, never appears — whereas the variant
that follows every folder page returns both. -/
theorem folder_pagination_dropped :
    listDrivePdfs twoPageDrive 3 "root" ""
      = [{ id := "pdfA", name := "a.pdf", mimeType := "application/pdf", size := 3
           path := "A/a.pdf" }]
    ∧ listDrivePdfsAllPages twoPageDrive 3 "root" ""
      = [{ id := "pdfA", name := "a.pdf", mimeType := "application/pdf", size := 3
           path := "A/a.pdf" },
         { id := "pdfB", name := "b.pdf", mimeType := "application/pdf", size := 3
           path := "B/b.pdf" }] := by
  exact ⟨by decide, by decide⟩

/-- C10: the data passthrough handlers.  With `DATA_URL` unset, both
the edge and the NextApi handler answer 500 with body
`{"error":"DATA_URL not set"}` and make no upstream request; when the
upstream fetch responds non-ok, both report the failure as an error
body `{"error":"Upstream <status>"}` under the upstream status rather
than passing the upstream content through. -/
theorem data_api_error_handling :
    (∀ fr : Except String UpstreamResp,
      dataApiHandler none fr =
        ({ status := 500, body := jsonError "DATA_URL not set" }, false))
    ∧ (∀ (url : String) (u : UpstreamResp), u.ok = false →
        dataApiHandler (some url) (Except.ok u)
          = ({ status := u.status, body := jsonError ("Upstream " ++ toString u.status) },
             true))
    ∧ (∀ (fr : Except String UpstreamResp) (pj : String → Except String String),
        dataApiHandlerNode none fr pj
          = ({ status := 500, body := jsonError "DATA_URL not set" }, false))
    ∧ (∀ (url : String) (u : UpstreamResp) (pj : String → Except String String),
        u.ok = false →
        dataApiHandlerNode (some url) (Except.ok u) pj
          = ({ status := u.status, body := jsonError ("Upstream " ++ toString u.status) },
             true)) := by
  refine ⟨fun fr => rfl, ?_, fun fr pj => rfl, ?_⟩
  · intro url u hok
    simp [dataApiHandler, hok]
  · intro url u pj hok
    simp [dataApiHandlerNode, hok]

/-- Witness for C10: a 502 upstream is reported as an error body with
status 502; the unset-`DATA_URL` answer is produced with no request. -/
theorem data_api_error_handling_witness :
    dataApiHandler (some "https://example.invalid/data.json") (Except.ok badUpstream)
      = ({ status := badUpstream.status,
           body := jsonError ("Upstream " ++ toString badUpstream.status) }, true)
    ∧ dataApiHandlerNode none (Except.ok badUpstream) Except.ok
      = ({ status := 500, body := jsonError "DATA_URL not set" }, false) :=
  ⟨data_api_error_handling.2.1 "https://example.invalid/data.json" badUpstream rfl,
   data_api_error_handling.2.2.1 (Except.ok badUpstream) Except.ok⟩

end ManualsApp
